import Mathlib

/-!
# Verification of the consent / triage / assisted-session core

Shallow embedding of the backend of the carevista telemedicine repository
(`backend/app`).  Collections of the document store are modelled as Lean
lists of record structures; each Python endpoint or service function is
translated into a pure Lean function returning an `Except HTTPException`
result together with the updated collection(s).  Timestamps are natural
numbers (minutes); Python `datetime` values are always truthy, so an
optional timestamp field is truthy exactly when it is `some`.
-/

set_option maxRecDepth 4096

/-- HTTP error raised by an endpoint (`fastapi.HTTPException`). -/
structure HTTPException where
  status_code : Nat
  detail : String
deriving DecidableEq, Repr

/-- Substring test on character lists: Python `needle in hay`. -/
def listContainsSub (needle : List Char) : List Char → Bool
  | [] => needle.isEmpty
  | c :: rest => needle.isPrefixOf (c :: rest) || listContainsSub needle rest

/-- Python `text.lower()` as a character list (ASCII case mapping). -/
def pyLower (s : String) : List Char := s.data.map Char.toLower

-- ===================== Triage classifier (`app/routers/triage.py`) =====================

/-- `TriageLevel` enum from `app/routers/triage.py`. -/
inductive TriageLevel
  | routine
  | consultation_needed
  | urgent_attention_suggested
deriving DecidableEq, Repr

/-- `URGENT_KEYWORDS` from `app/routers/triage.py`. -/
def URGENT_KEYWORDS : List String :=
  ["sudden", "severe", "worst", "chest", "breathing",
   "unconscious", "unresponsive", "bleeding heavily",
   "cannot breathe", "fainting", "collapse"]

/-- `any(kw in text_lower for kw in URGENT_KEYWORDS)` on `symptom_text.lower()`. -/
def hasUrgentKeyword (symptom_text : String) : Bool :=
  URGENT_KEYWORDS.any (fun kw => listContainsSub kw.data (pyLower symptom_text))

/-- `compute_triage` from `app/routers/triage.py` (lines 99..146). -/
def compute_triage (severity : Int) (duration_days : Int) (symptom_text : String) :
    TriageLevel × String :=
  let has_urgent_keyword := hasUrgentKeyword symptom_text
  if 8 ≤ severity ∨ has_urgent_keyword = true then
    let reason := "Rule triggered: "
    let reason := if 8 ≤ severity then reason ++ s!"High severity ({severity}/10). " else reason
    let reason :=
      if has_urgent_keyword then
        reason ++ "Symptom description contains urgent indicators."
      else reason
    (.urgent_attention_suggested, reason.trim)
  else if 5 ≤ severity ∨ duration_days ≤ 3 then
    let reason := "Rule triggered: "
    let reason := if 5 ≤ severity then reason ++ s!"Moderate severity ({severity}/10). " else reason
    let reason :=
      if duration_days ≤ 3 then reason ++ s!"Recent onset ({duration_days} days)." else reason
    (.consultation_needed, reason.trim)
  else
    (.routine,
     s!"Rule: Stable symptoms, severity {severity}/10, duration {duration_days} days.")

-- ===================== Consent ledger (`app/services/firebase_admin.py`) =====================

/--
A document of the `consents` collection, as a partial record: every field any
writer or query of the repository uses appears as an `Option`, `none` meaning
the field is absent from the document.  The camelCase family
(`patientUid`/`consentType`/`granted`/`revokedAt`) is what `verify_consent`
and `get_consent_scope` query; the snake_case family
(`patient_uid`/`consent_type`/`consent_given`/`revoked`) is what
`capture_assisted_consent` writes.  `revokedAt` holds a `datetime`, which is
always truthy in Python, so `not data.get("revokedAt")` is `revokedAt = none`.
-/
structure ConsentDoc where
  patientUid : Option String := none
  consentType : Option String := none
  granted : Option Bool := none
  revokedAt : Option Nat := none
  patient_uid : Option String := none
  consent_type : Option String := none
  consent_given : Option Bool := none
  is_assisted : Option Bool := none
  assisted_by : Option String := none
  session_id : Option String := none
  created_at : Option Nat := none
  revocable : Option Bool := none
  revoked : Option Bool := none
  docId : Option String := none
deriving DecidableEq, Repr

/-- The Firestore query filter of `verify_consent`:
`patientUid == p`, `consentType == t`, `granted == True`. -/
def consentQueryMatch (p t : String) (d : ConsentDoc) : Bool :=
  d.patientUid == some p && d.consentType == some t && d.granted == some true

/-- `verify_consent` from `app/services/firebase_admin.py` (lines 85..112):
returns `true` iff some queried document has a falsy `revokedAt`. -/
def verify_consent (consents : List ConsentDoc) (patient_uid consent_type : String) : Bool :=
  (consents.filter (consentQueryMatch patient_uid consent_type)).any
    (fun d => d.revokedAt == none)

/-- `get_consent_scope` from `app/services/firebase_admin.py` (lines 115..131). -/
def get_consent_scope (consents : List ConsentDoc) (patient_uid : String) :
    List (Option String) :=
  ((consents.filter
      (fun d => d.patientUid == some patient_uid && d.granted == some true)).filter
    (fun d => d.revokedAt == none)).map (fun d => d.consentType)

-- ===================== Assisted sessions (`app/routers/health_worker.py`) =====================

/-- The fixed `permissions` map stored on an assisted session. -/
structure Permissions where
  can_upload : Bool
  can_log_symptoms : Bool
  can_capture_consent : Bool
  can_view_history : Bool
  can_view_ai_summary : Bool
  can_view_triage : Bool
  can_view_prescriptions : Bool
deriving DecidableEq, Repr

/-- The `status` strings an assisted session takes in the source. -/
inductive SessionStatus
  | active
  | expired
  | ended
deriving DecidableEq, Repr

/-- A document of the `assisted_sessions` collection. -/
structure Session where
  id : String
  health_worker_uid : String
  patient_uid : String
  status : SessionStatus
  is_assisted : Bool
  patient_presence_confirmed : Bool
  preferred_language : String
  created_at : Nat
  last_activity : Nat
  expires_at : Nat
  ended_at : Option Nat := none
  permissions : Permissions
deriving DecidableEq, Repr

/-- `SESSION_TIMEOUT_MINUTES` from `app/routers/health_worker.py`. -/
def SESSION_TIMEOUT_MINUTES : Nat := 30

/--
`SessionStartRequest` pydantic model.  Extra body fields such as a
caller-supplied `permissions` object are dropped by the request model and
never reach the endpoint; `extra_permissions` carries such a field so the
malicious-caller property of the spec can be stated: the endpoint ignores it.
-/
structure SessionStartRequest where
  patient_uid : Option String := none
  is_temporary : Bool := false
  patient_name : Option String := none
  preferred_language : String := "en"
  patient_presence_confirmed : Bool := true
  extra_permissions : Option Permissions := none
deriving DecidableEq, Repr

/-- Response of `start_assisted_session`. -/
structure SessionResponse where
  session_id : String
  patient_uid : String
  is_assisted : Bool
  expires_at : Nat
deriving DecidableEq, Repr

/--
`get_active_session` from `app/routers/health_worker.py` (lines 149..175):
walks the sessions of the worker whose status is `active`; returns the first
one with `expires_at > now`, marking every stale one it passes as `expired`.
Returns the found session (if any) together with the updated collection.
-/
def get_active_session (uid : String) (now : Nat) :
    List Session → Option Session × List Session
  | [] => (none, [])
  | s :: rest =>
    if s.health_worker_uid == uid && s.status == .active then
      if now < s.expires_at then (some s, s :: rest)
      else
        let s' := { s with status := .expired, ended_at := some now }
        let r := get_active_session uid now rest
        (r.1, s' :: r.2)
    else
      let r := get_active_session uid now rest
      (r.1, s :: r.2)

/-- Firestore `collection.document(id).set(doc)`: replace the document with
that id, or append a new one. -/
def setSessionDoc (st : List Session) (s : Session) : List Session :=
  if st.any (fun t => t.id == s.id) then
    st.map (fun t => if t.id == s.id then s else t)
  else st ++ [s]

/-- Firestore `collection.document(id).update(fields)` (call sites only
update documents they have just read). -/
def updateSessionDoc (st : List Session) (sid : String) (f : Session → Session) :
    List Session :=
  st.map (fun t => if t.id == sid then f t else t)

/-- The fixed permissions literal written by `start_assisted_session`. -/
def startPermissions : Permissions :=
  { can_upload := true, can_log_symptoms := true, can_capture_consent := true,
    can_view_history := false, can_view_ai_summary := false,
    can_view_triage := false, can_view_prescriptions := false }

/-- The all-false permissions literal written by `end_assisted_session`. -/
def endedPermissions : Permissions :=
  { can_upload := false, can_log_symptoms := false, can_capture_consent := false,
    can_view_history := false, can_view_ai_summary := false,
    can_view_triage := false, can_view_prescriptions := false }

/-- The `session_data` document written by `start_assisted_session`. -/
def startSessionDoc (hwUid fresh patient_uid preferred_language : String) (now : Nat) :
    Session :=
  { id := "session-" ++ fresh, health_worker_uid := hwUid, patient_uid := patient_uid,
    status := .active, is_assisted := true, patient_presence_confirmed := true,
    preferred_language := preferred_language,
    created_at := now, last_activity := now,
    expires_at := now + SESSION_TIMEOUT_MINUTES,
    permissions := startPermissions }

/--
`start_assisted_session` from `app/routers/health_worker.py` (lines 178..275).
`fresh` stands for the `secrets.token_hex` value used to mint ids.  The
temporary-patient record written to `temporary_patients` is outside the
sessions collection and not modelled here.
-/
def start_assisted_session (st : List Session) (req : SessionStartRequest)
    (hwUid fresh : String) (now : Nat) :
    Except HTTPException SessionResponse × List Session :=
  if req.patient_presence_confirmed = false then
    (.error ⟨400, "Patient presence confirmation is mandatory for assisted sessions"⟩, st)
  else
    match get_active_session hwUid now st with
    | (some _, st') =>
      (.error ⟨409, "You already have an active assisted session. Please end it before starting a new one."⟩,
       st')
    | (none, st') =>
      let patientRes : Except HTTPException String :=
        if req.is_temporary then .ok ("temp-" ++ fresh)
        else
          match req.patient_uid with
          | none => .error ⟨400, "Patient UID required for non-temporary sessions"⟩
          | some p => .ok p
      match patientRes with
      | .error e => (.error e, st')
      | .ok patient_uid =>
        let sess := startSessionDoc hwUid fresh patient_uid req.preferred_language now
        (.ok ⟨sess.id, patient_uid, true, sess.expires_at⟩, setSessionDoc st' sess)

/--
`session_heartbeat` from `app/routers/health_worker.py` (lines 278..319):
fetch by id (404 if absent), ownership check (403), stored-status check
(410), then slide `expires_at` to `now + SESSION_TIMEOUT_MINUTES`.  There is
no comparison of `expires_at` against `now`.
-/
def session_heartbeat (st : List Session) (session_id hwUid : String) (now : Nat) :
    Except HTTPException Nat × List Session :=
  match st.find? (fun t => t.id == session_id) with
  | none => (.error ⟨404, "Session not found"⟩, st)
  | some session =>
    if session.health_worker_uid ≠ hwUid then
      (.error ⟨403, "Not your session"⟩, st)
    else if session.status ≠ .active then
      (.error ⟨410, "Session has expired. Start a new session with patient consent."⟩, st)
    else
      let new_expiry := now + SESSION_TIMEOUT_MINUTES
      (.ok new_expiry,
       updateSessionDoc st session_id
         (fun s => { s with last_activity := now, expires_at := new_expiry }))

/-- `end_assisted_session` from `app/routers/health_worker.py` (lines 322..375). -/
def end_assisted_session (st : List Session) (session_id hwUid : String) (now : Nat) :
    Except HTTPException Unit × List Session :=
  match st.find? (fun t => t.id == session_id) with
  | none => (.error ⟨404, "Session not found"⟩, st)
  | some session =>
    if session.health_worker_uid ≠ hwUid then
      (.error ⟨403, "Not your session"⟩, st)
    else
      (.ok (),
       updateSessionDoc st session_id
         (fun s =>
           { s with
             status := .ended
             ended_at := some now
             permissions := endedPermissions }))

/-- `require_active_assisted_session` from `app/routers/health_worker.py`
(lines 405..445): ownership, stored status, then the `expires_at <= now`
sweep that marks the session `expired`. -/
def require_active_assisted_session (st : List Session) (session_id hwUid : String)
    (now : Nat) : Except HTTPException Session × List Session :=
  match st.find? (fun t => t.id == session_id) with
  | none => (.error ⟨404, "Session not found"⟩, st)
  | some session =>
    if session.health_worker_uid ≠ hwUid then
      (.error ⟨403, "Not your session"⟩, st)
    else if session.status ≠ .active then
      (.error ⟨410, "Session has ended. Start a new session with patient consent."⟩, st)
    else if session.expires_at ≤ now then
      (.error ⟨410, "Session has expired. Start a new session with patient consent."⟩,
       updateSessionDoc st session_id
         (fun s => { s with status := .expired, ended_at := some now }))
    else (.ok session, st)

/--
`capture_assisted_consent` from `app/routers/health_worker.py`
(lines 503..557): after the active-session gate, writes a document to the
`consents` collection under the snake_case field names
(`patient_uid`, `consent_type`, `consent_given`, `revoked`, ...); its
document id is minted from the current timestamp and is fresh.
-/
def capture_assisted_consent (st : List Session) (consents : List ConsentDoc)
    (session_id consent_type : String) (consent_given : Bool) (hwUid : String)
    (now : Nat) : Except HTTPException String × List Session × List ConsentDoc :=
  match require_active_assisted_session st session_id hwUid now with
  | (.error e, st') => (.error e, st', consents)
  | (.ok session, st') =>
    let consent_id := "consent-" ++ toString now
    let doc : ConsentDoc :=
      { docId := some consent_id,
        patient_uid := some session.patient_uid,
        consent_type := some consent_type,
        consent_given := some consent_given,
        is_assisted := some true,
        assisted_by := some hwUid,
        session_id := some session_id,
        created_at := some now,
        revocable := some true,
        revoked := some false }
    (.ok consent_id, st', consents ++ [doc])

/-- The operations of the repository that read or write the
`assisted_sessions` collection. -/
inductive SessionOp
  | start (req : SessionStartRequest) (hwUid fresh : String) (now : Nat)
  | heartbeat (session_id hwUid : String) (now : Nat)
  | endSession (session_id hwUid : String) (now : Nat)
  | currentSession (hwUid : String) (now : Nat)
  | captureConsent (session_id consent_type : String) (consent_given : Bool)
      (hwUid : String) (now : Nat)

/-- Effect of each operation on the `assisted_sessions` collection. -/
def applySessionOp (st : List Session) : SessionOp → List Session
  | .start req hw f now => (start_assisted_session st req hw f now).2
  | .heartbeat sid hw now => (session_heartbeat st sid hw now).2
  | .endSession sid hw now => (end_assisted_session st sid hw now).2
  | .currentSession hw now => (get_active_session hw now st).2
  | .captureConsent sid ct g hw now => (capture_assisted_consent st [] sid ct g hw now).2.1

/-- All four view-permission flags of a session are false. -/
def viewPermsOff (s : Session) : Bool :=
  s.permissions.can_view_history == false &&
  s.permissions.can_view_ai_summary == false &&
  s.permissions.can_view_triage == false &&
  s.permissions.can_view_prescriptions == false

-- ===================== Triage store and doctor override (`app/routers/triage.py`) =====================

/-- A document of the `triage` collection (its Firestore document id is the
symptom id, mirrored in the `symptom_id` field). -/
structure TriageDoc where
  symptom_id : String
  patient_uid : String
  triage_level : TriageLevel
  classification_reason : String
  ai_role : String := "non_clinical_scheduling_only"
  doctor_override : Option TriageLevel := none
  doctor_override_reason : Option String := none
  overridden_by : Option String := none
  overridden_at : Option Nat := none
  computed_at : Nat
deriving DecidableEq, Repr

/-- `collection("triage").document(sid).get()`. -/
def findTriageDoc (st : List TriageDoc) (sid : String) : Option TriageDoc :=
  st.find? (fun d => d.symptom_id == sid)

/-- `collection("triage").document(sid).update(...)`. -/
def updateTriageDoc (st : List TriageDoc) (sid : String) (f : TriageDoc → TriageDoc) :
    List TriageDoc :=
  st.map (fun d => if d.symptom_id == sid then f d else d)

/-- `doctor_override_triage` from `app/routers/triage.py` (lines 219..256). -/
def doctor_override_triage (st : List TriageDoc) (symptom_id : String)
    (new_level : TriageLevel) (reason : String) (role uid : String) (now : Nat) :
    Except HTTPException Unit × List TriageDoc :=
  if role ≠ "doctor" then
    (.error ⟨403, "Only doctors can override triage"⟩, st)
  else
    match findTriageDoc st symptom_id with
    | none => (.error ⟨404, "Triage not found"⟩, st)
    | some _ =>
      (.ok (),
       updateTriageDoc st symptom_id
         (fun d =>
           { d with
             doctor_override := some new_level
             doctor_override_reason := some reason
             overridden_by := some uid
             overridden_at := some now }))

-- ===================== Priority queue (`app/routers/consultations.py`) =====================

/-- A document of the `summaries` collection (document id = recording id,
kept in `docId`; the nested `summary` map is flattened to the one field the
queue reads). -/
structure SummaryDoc where
  docId : String
  patientUid : String
  chiefComplaint : String := ""
  createdAt : Nat
  approvalStatus : Option String := none
  doctorNotes : Option String := none
deriving DecidableEq, Repr

/-- `TRIAGE_PRIORITY` from `app/routers/consultations.py` (lines 197..201);
the `.get(level, 3)` default can not fire since every stored level is one of
the three keys. -/
def TRIAGE_PRIORITY : TriageLevel → Nat
  | .urgent_attention_suggested => 1
  | .consultation_needed => 2
  | .routine => 3

/-- One element of the queue built by `get_pending_queue`. -/
structure QueueEntry where
  id : String
  patient_uid : String
  summary_preview : String
  created_at : Nat
  triage_level : TriageLevel
  doctor_override : Option TriageLevel
  priority : Nat
deriving DecidableEq, Repr

/-- The body of the loop of `get_pending_queue`: look the triage document of the summary
document up; `triage_level = doctor_override or stored level` (default
`routine` when there is no triage document). -/
def buildQueueEntry (triage : List TriageDoc) (s : SummaryDoc) : QueueEntry :=
  match findTriageDoc triage s.docId with
  | none =>
    { id := s.docId, patient_uid := s.patientUid,
      summary_preview := String.mk (s.chiefComplaint.data.take 100),
      created_at := s.createdAt, triage_level := .routine,
      doctor_override := none, priority := TRIAGE_PRIORITY .routine }
  | some t =>
    let level := t.doctor_override.getD t.triage_level
    { id := s.docId, patient_uid := s.patientUid,
      summary_preview := String.mk (s.chiefComplaint.data.take 100),
      created_at := s.createdAt, triage_level := level,
      doctor_override := t.doctor_override, priority := TRIAGE_PRIORITY level }

/-- The lexicographic key `(priority, created_at)` used by the final
`queue.sort`. -/
def queueLe (a b : QueueEntry) : Bool :=
  a.priority < b.priority || (a.priority == b.priority && a.created_at ≤ b.created_at)

/-- `get_pending_queue` from `app/routers/consultations.py` (lines 204..264):
approved, not-yet-handled summaries, each joined with its triage document,
sorted by `(priority, created_at)` ascending (Python sort is stable;
`mergeSort` with the lexicographic key is its Lean counterpart). -/
def get_pending_queue (summaries : List SummaryDoc) (triage : List TriageDoc) :
    List QueueEntry :=
  let pending := summaries.filter
    (fun s => s.approvalStatus == some "approved" && s.doctorNotes == none)
  (pending.map (buildQueueEntry triage)).mergeSort queueLe

-- ===================== Prescriptions (`app/routers/prescriptions.py`) =====================

/-- `Medicine` pydantic model. -/
structure Medicine where
  name : String
  dosage : Option String := none
  frequency : Option String := none
  duration : Option String := none
  instructions : Option String := none
deriving DecidableEq, Repr

/-- A document of the `prescriptions` collection. -/
structure Prescription where
  id : String
  consultation_id : String
  patient_uid : String
  doctor_uid : String
  medicines : List Medicine
  notes : Option String := none
  created_at : Nat
  updated_at : Nat
  finalized : Bool
  finalized_at : Option Nat := none
  authored_by : String := "doctor"
  ai_involvement : Option String := none
deriving DecidableEq, Repr

/-- `collection("prescriptions").document(pid).get()`. -/
def findPrescription (st : List Prescription) (pid : String) : Option Prescription :=
  st.find? (fun p => p.id == pid)

/-- `collection("prescriptions").document(pid).update(...)`. -/
def updatePrescriptionDoc (st : List Prescription) (pid : String)
    (f : Prescription → Prescription) : List Prescription :=
  st.map (fun p => if p.id == pid then f p else p)

/-- `update_prescription` from `app/routers/prescriptions.py` (lines 107..147):
404 if absent, 403 unless the caller is the authoring doctor, 400 if the
prescription is finalized, otherwise replace medicines and notes. -/
def update_prescription (st : List Prescription) (prescription_id : String)
    (medicines : List Medicine) (notes : Option String) (doctorUid : String)
    (now : Nat) : Except HTTPException Unit × List Prescription :=
  match findPrescription st prescription_id with
  | none => (.error ⟨404, "Prescription not found"⟩, st)
  | some data =>
    if data.doctor_uid ≠ doctorUid then
      (.error ⟨403, "Only the authoring doctor can edit this prescription"⟩, st)
    else if data.finalized then
      (.error ⟨400, "Cannot edit a finalized prescription"⟩, st)
    else
      (.ok (),
       updatePrescriptionDoc st prescription_id
         (fun p =>
           { p with
             medicines := medicines
             notes := notes
             updated_at := now }))

/-- `finalize_prescription` from `app/routers/prescriptions.py`
(lines 150..183): 404 if absent, 403 unless the caller is the authoring
doctor, otherwise set `finalized` (no prior-finalized check). -/
def finalize_prescription (st : List Prescription) (prescription_id : String)
    (doctorUid : String) (now : Nat) : Except HTTPException Unit × List Prescription :=
  match findPrescription st prescription_id with
  | none => (.error ⟨404, "Prescription not found"⟩, st)
  | some data =>
    if data.doctor_uid ≠ doctorUid then
      (.error ⟨403, "Only the authoring doctor can finalize this prescription"⟩, st)
    else
      (.ok (),
       updatePrescriptionDoc st prescription_id
         (fun p =>
           { p with
             finalized := true
             finalized_at := some now }))

-- ===================== Temporary-patient linking (`app/routers/temporary_patients.py`) =====================

/-- A document of the `temporary_patients` collection. -/
structure TempPatientDoc where
  id : String
  name : String
  phone : Option String := none
  age : Option Nat := none
  gender : Option String := none
  camp_name : Option String := none
  created_by_uid : String := ""
  linked_to_uid : Option String := none
  linked_at : Option Nat := none
  created_at : Nat
deriving DecidableEq, Repr

/-- A document of the `vitals` collection (`app/routers/vitals.py` writes the
patient reference under `patient_uid`); the measurement fields are opaque
payload. -/
structure VitalsDoc where
  docId : String
  patient_uid : String
  payload : String := ""
  created_at : Nat
deriving DecidableEq, Repr

/-- A document of the `symptoms` collection.  `store_symptom_record` in
`app/services/firebase_admin.py` writes the patient reference under the
camelCase `patientUid`; the migration of `link_temporary_patient` queries the
snake_case `patient_uid`.  Both slots are carried so either spelling can be
present. -/
structure SymptomDoc where
  docId : String
  patientUid : Option String := none
  patient_uid : Option String := none
  recordingId : Option String := none
  payload : String := ""
  createdAt : Option Nat := none
deriving DecidableEq, Repr

/-- A document of the `reports` collection (both writers use `patient_uid`). -/
structure ReportDoc where
  docId : String
  patient_uid : String
  payload : String := ""
  created_at : Nat
deriving DecidableEq, Repr

/-- `store_symptom_record` from `app/services/firebase_admin.py`
(lines 134..152): `document(recording_id).set` of a record whose patient
reference field is the camelCase `patientUid`. -/
def store_symptom_record (symptoms : List SymptomDoc)
    (patient_uid recording_id : String) (payload : String) (now : Nat) :
    List SymptomDoc :=
  let record : SymptomDoc :=
    { docId := recording_id, patientUid := some patient_uid,
      recordingId := some recording_id, payload := payload,
      createdAt := some now }
  if symptoms.any (fun t => t.docId == recording_id) then
    symptoms.map (fun t => if t.docId == recording_id then record else t)
  else symptoms ++ [record]

/-- The collections touched by `link_temporary_patient`. -/
structure MigState where
  temporary_patients : List TempPatientDoc
  vitals : List VitalsDoc
  symptoms : List SymptomDoc
  reports : List ReportDoc
  summaries : List SummaryDoc
  consents : List ConsentDoc
deriving DecidableEq, Repr

/--
`link_temporary_patient` from `app/routers/temporary_patients.py`
(lines 97..167): role gate, 404 when the temporary patient is unknown, 400
when already linked (`if data.get("linked_to_uid")` — Python truthiness on an
optional string), then per-collection equality-filtered updates of the
patient reference field: `patient_uid` for vitals, symptoms and reports,
`patientUid` for summaries and consents.
-/
def link_temporary_patient (st : MigState) (temp_id permanent_uid : String)
    (role : String) (now : Nat) : Except HTTPException Unit × MigState :=
  if role ≠ "health_worker" then
    (.error ⟨403, "Only health workers can link temporary patients"⟩, st)
  else
    match st.temporary_patients.find? (fun d => d.id == temp_id) with
    | none => (.error ⟨404, "Temporary patient not found"⟩, st)
    | some data =>
      if data.linked_to_uid.getD "" ≠ "" then
        (.error ⟨400, "Patient already linked to a permanent account"⟩, st)
      else
        (.ok (),
         { temporary_patients :=
             st.temporary_patients.map
               (fun d =>
                 if d.id == temp_id then
                   { d with linked_to_uid := some permanent_uid, linked_at := some now }
                 else d)
           vitals :=
             st.vitals.map
               (fun v =>
                 if v.patient_uid == temp_id then { v with patient_uid := permanent_uid }
                 else v)
           symptoms :=
             st.symptoms.map
               (fun s =>
                 if s.patient_uid == some temp_id then
                   { s with patient_uid := some permanent_uid }
                 else s)
           reports :=
             st.reports.map
               (fun r =>
                 if r.patient_uid == temp_id then { r with patient_uid := permanent_uid }
                 else r)
           summaries :=
             st.summaries.map
               (fun s =>
                 if s.patientUid == temp_id then { s with patientUid := permanent_uid }
                 else s)
           consents :=
             st.consents.map
               (fun c =>
                 if c.patientUid == some temp_id then
                   { c with patientUid := some permanent_uid }
                 else c) })

-- ===================== Discussion-wall identifier scanner (`app/routers/discussions.py`) =====================

/-- A word character of the regular expressions (`\w`, ASCII range). -/
def isWordChar (c : Char) : Bool := c.isAlphanum || c == '_'

/-- Maximal runs of word characters of a text (accumulator-based split). -/
def wordRunsAux : List Char → List Char → List (List Char)
  | cur, [] => if cur.isEmpty then [] else [cur.reverse]
  | cur, c :: cs =>
    if isWordChar c then wordRunsAux (c :: cur) cs
    else if cur.isEmpty then wordRunsAux [] cs
    else cur.reverse :: wordRunsAux [] cs

/-- Maximal runs of word characters of a text. -/
def wordRuns (l : List Char) : List (List Char) := wordRunsAux [] l

/--
`the first IDENTIFIER_PATTERNS regex (8-plus run of the class A-Z 0-9 between word boundaries, IGNORECASE)`: a match exists iff
some maximal word-character run consists only of alphanumeric characters
(no underscore, which is a word character but outside the class, so the
required word boundaries cannot fall inside a run) and is at least 8 long.
-/
def matchesLongAlnumToken (l : List Char) : Bool :=
  (wordRuns l).any (fun r => 8 ≤ r.length && r.all (fun c => c.isAlphanum))

/-- `the 10-plus-digit-run regex of IDENTIFIER_PATTERNS`: some maximal word-character run is all
digits and at least 10 long. -/
def matchesLongDigitToken (l : List Char) : Bool :=
  (wordRuns l).any (fun r => 10 ≤ r.length && r.all (fun c => c.isDigit))

/-- `\d{4}-\d{2}-\d{2}\b` anchored at the current position (the leading `\b`
is handled by the scanner, the trailing one here: the next character, if any,
is not a word character). -/
def dateHere : List Char → Bool
  | d1 :: d2 :: d3 :: d4 :: h1 :: m1 :: m2 :: h2 :: x1 :: x2 :: rest =>
    d1.isDigit && d2.isDigit && d3.isDigit && d4.isDigit && h1 == '-' &&
    m1.isDigit && m2.isDigit && h2 == '-' && x1.isDigit && x2.isDigit &&
    (match rest with
     | [] => true
     | r :: _ => !isWordChar r)
  | _ => false

/-- Scan every suffix whose start sits at a `\b` word boundary (the pattern
starts with a word character, so the previous character must not be one). -/
def searchAtBoundary (check : List Char → Bool) : Bool → List Char → Bool
  | _, [] => false
  | prevWord, c :: cs =>
    (!prevWord && check (c :: cs)) || searchAtBoundary check (isWordChar c) cs

/-- `the date regex of IDENTIFIER_PATTERNS`. -/
def matchesIsoDate (l : List Char) : Bool :=
  searchAtBoundary dateHere false l

/-- After `\s+` has consumed at least one character: either one of the
alternatives starts here, or consume one more whitespace character. -/
def wsRestAlt (alts : List (List Char)) : List Char → Bool
  | [] => alts.any (fun a => a.isEmpty)
  | c :: cs =>
    alts.any (fun a => a.isPrefixOf (c :: cs)) || (c.isWhitespace && wsRestAlt alts cs)

/-- `\s+(alt1|alt2|...)` anchored at the current position. -/
def wsPlusAlt (alts : List (List Char)) : List Char → Bool
  | [] => false
  | c :: cs => c.isWhitespace && wsRestAlt alts cs

/-- Unanchored search of an explicit position check over every suffix. -/
def searchSub (check : List Char → Bool) : List Char → Bool
  | [] => check []
  | c :: cs => check (c :: cs) || searchSub check cs

/-- `the id-phrase regexes of IDENTIFIER_PATTERNS (keyword, one or more whitespace, alternative)` for the id-phrase patterns. -/
def matchesIdPhrase (kw : String) (alts : List String) (l : List Char) : Bool :=
  searchSub
    (fun suf =>
      kw.data.isPrefixOf suf && wsPlusAlt (alts.map (fun a => a.data)) (suf.drop kw.length))
    l

/-- `check_for_identifiers` from `app/routers/discussions.py` (lines 41..59):
the six `IDENTIFIER_PATTERNS` regexes searched over `text.lower()` with
`re.IGNORECASE` (ASCII character classes). -/
def check_for_identifiers (text : String) : Bool :=
  let low := pyLower text
  matchesLongAlnumToken low ||
  matchesIsoDate low ||
  matchesLongDigitToken low ||
  matchesIdPhrase "patient" ["id", "uid", "number"] low ||
  matchesIdPhrase "consultation" ["id", "uid"] low ||
  matchesIdPhrase "visit" ["id", "uid"] low

/-- A document of the `discussions` collection. -/
structure DiscussionDoc where
  id : String
  title : String
  content : String
  category : String
  author_uid : String
  author_name : String
  reply_count : Nat
  created_at : Nat
  updated_at : Nat
  patient_linked : Bool
  contains_identifiers : Bool
deriving DecidableEq, Repr

/-- `DiscussionPost` pydantic model. -/
structure DiscussionPost where
  title : String
  content : String
  category : String := "general"
deriving DecidableEq, Repr

/-- A document of a `replies` subcollection. -/
structure ReplyDoc where
  id : String
  content : String
  author_uid : String
  author_name : String
  created_at : Nat
  contains_identifiers : Bool
deriving DecidableEq, Repr

/-- `create_discussion` from `app/routers/discussions.py` (lines 84..139):
reject with 400 before any write when title or content scans positive;
otherwise store the post (document id minted from the timestamp, fresh).
`doctorName` stands for the display-name lookup in the `users` collection. -/
def create_discussion (discussions : List DiscussionDoc) (post : DiscussionPost)
    (doctorUid doctorName : String) (now : Nat) :
    Except HTTPException DiscussionDoc × List DiscussionDoc :=
  if check_for_identifiers post.title || check_for_identifiers post.content then
    (.error ⟨400, "Content appears to contain patient identifiers or dates. Please use hypothetical examples without identifiable information."⟩,
     discussions)
  else
    let post_id := "disc-" ++ toString now
    let doc : DiscussionDoc :=
      { id := post_id, title := post.title, content := post.content,
        category := post.category, author_uid := doctorUid,
        author_name := doctorName, reply_count := 0, created_at := now,
        updated_at := now, patient_linked := false, contains_identifiers := false }
    (.ok doc, discussions ++ [doc])

/-- `add_reply` from `app/routers/discussions.py` (lines 222..275): scanner
first, then post existence, then append the reply and bump `reply_count`.
`replies` is the subcollection of the addressed post. -/
def add_reply (discussions : List DiscussionDoc) (replies : List ReplyDoc)
    (post_id content : String) (doctorUid doctorName : String) (now : Nat) :
    Except HTTPException String × List DiscussionDoc × List ReplyDoc :=
  if check_for_identifiers content then
    (.error ⟨400, "Reply appears to contain patient identifiers. Please use hypothetical examples."⟩,
     discussions, replies)
  else
    match discussions.find? (fun d => d.id == post_id) with
    | none => (.error ⟨404, "Discussion not found"⟩, discussions, replies)
    | some post_doc =>
      let reply_id := "reply-" ++ toString now
      let rdoc : ReplyDoc :=
        { id := reply_id, content := content, author_uid := doctorUid,
          author_name := doctorName, created_at := now,
          contains_identifiers := false }
      (.ok reply_id,
       discussions.map
         (fun d =>
           if d.id == post_id then
             { d with reply_count := post_doc.reply_count + 1, updated_at := now }
           else d),
       replies ++ [rdoc])

-- ===================== Theorems =====================

/--
C1: for every patient id and consent type, `verify_consent` returns true iff
the `consents` collection holds a record for that patient and type with
`granted == true` and no `revokedAt` set; for a patient with no consent
records at all it returns false (no error).
-/
theorem C1_verify_consent_iff (consents : List ConsentDoc) (p t : String) :
    (verify_consent consents p t = true ↔
      ∃ d ∈ consents, d.patientUid = some p ∧ d.consentType = some t ∧
        d.granted = some true ∧ d.revokedAt = none) ∧
    ((∀ d ∈ consents, d.patientUid ≠ some p) → verify_consent consents p t = false) := by
  have hiff : verify_consent consents p t = true ↔
      ∃ d ∈ consents, d.patientUid = some p ∧ d.consentType = some t ∧
        d.granted = some true ∧ d.revokedAt = none := by
    simp only [verify_consent, List.any_eq_true, List.mem_filter, consentQueryMatch,
      Bool.and_eq_true, beq_iff_eq]
    tauto
  refine ⟨hiff, ?_⟩
  intro hnone
  cases h : verify_consent consents p t with
  | false => rfl
  | true =>
    exfalso
    obtain ⟨d, hd, h1, -⟩ := hiff.mp h
    exact hnone d hd h1

/-- Witness for C1 at a patient with no records. -/
theorem C1_witness : verify_consent [] "p0" "recording" = false :=
  (C1_verify_consent_iff [] "p0" "recording").2 (by simp)

/--
C2: for severity in 1..10, `compute_triage` is exactly the three-rule
cascade (severity ≥ 8 or an urgent keyword → urgent; else severity ≥ 5 or
duration ≤ 3 days → consultation; else routine), with the four table rows of
the spec.
-/
theorem C2_compute_triage_rules (severity duration_days : Int) (text : String)
    (h1 : 1 ≤ severity) (h2 : severity ≤ 10) :
    (compute_triage severity duration_days text).1 =
      (if 8 ≤ severity ∨ hasUrgentKeyword text = true then
        TriageLevel.urgent_attention_suggested
       else if 5 ≤ severity ∨ duration_days ≤ 3 then TriageLevel.consultation_needed
       else TriageLevel.routine) ∧
    (compute_triage 9 30 "mild cough").1 = .urgent_attention_suggested ∧
    (compute_triage 2 30 "sudden collapse").1 = .urgent_attention_suggested ∧
    (compute_triage 6 30 "").1 = .consultation_needed ∧
    (compute_triage 2 60 "").1 = .routine := by
  refine ⟨?_, by decide, by decide, by decide, by decide⟩
  simp only [compute_triage]
  by_cases hu : 8 ≤ severity ∨ hasUrgentKeyword text = true
  · rw [if_pos hu, if_pos hu]
  · rw [if_neg hu, if_neg hu]
    by_cases hc : 5 ≤ severity ∨ duration_days ≤ 3
    · rw [if_pos hc, if_pos hc]
    · rw [if_neg hc, if_neg hc]

/-- Witness for C2 at the first table row. -/
theorem C2_witness :
    (compute_triage 9 30 "mild cough").1 = .urgent_attention_suggested :=
  (C2_compute_triage_rules 9 30 "mild cough" (by decide) (by decide)).2.1

/--
C10: the consent record written by `capture_assisted_consent` (snake_case
field names) is never matched by `verify_consent` / `get_consent_scope`
(which filter on the camelCase field names), so both queries return the same
value after a capture as before it, for every store, patient and type.
-/
theorem C10_assisted_consent_not_queried (st : List Session) (consents : List ConsentDoc)
    (sid ct : String) (given : Bool) (hw : String) (now : Nat) (p t : String) :
    verify_consent (capture_assisted_consent st consents sid ct given hw now).2.2 p t =
      verify_consent consents p t ∧
    get_consent_scope (capture_assisted_consent st consents sid ct given hw now).2.2 p =
      get_consent_scope consents p := by
  unfold capture_assisted_consent
  cases hre : require_active_assisted_session st sid hw now with
  | mk r st' =>
    cases r with
    | error e => simp
    | ok session =>
      constructor
      · simp [verify_consent, List.filter_append, consentQueryMatch]
      · simp [get_consent_scope, List.filter_append]

/--
C9: a discussion post whose title or content matches the identifier scanner
is rejected with 400 and nothing is stored; a post matching none of the
patterns is stored; likewise for replies (scanned before the post-existence
check, and stored only when clean).
-/
theorem C9_discussion_identifier_gate
    (discussions : List DiscussionDoc) (replies : List ReplyDoc)
    (post : DiscussionPost) (pid content uid name : String) (now : Nat) :
    ((check_for_identifiers post.title = true ∨ check_for_identifiers post.content = true) →
      (create_discussion discussions post uid name now).2 = discussions ∧
      (create_discussion discussions post uid name now).1 =
        .error ⟨400, "Content appears to contain patient identifiers or dates. Please use hypothetical examples without identifiable information."⟩) ∧
    (check_for_identifiers post.title = false → check_for_identifiers post.content = false →
      ∃ doc, (create_discussion discussions post uid name now).1 = .ok doc ∧
        (create_discussion discussions post uid name now).2 = discussions ++ [doc]) ∧
    (check_for_identifiers content = true →
      (add_reply discussions replies pid content uid name now).2.2 = replies ∧
      (add_reply discussions replies pid content uid name now).2.1 = discussions ∧
      (add_reply discussions replies pid content uid name now).1 =
        .error ⟨400, "Reply appears to contain patient identifiers. Please use hypothetical examples."⟩) ∧
    (check_for_identifiers content = false →
      ∀ pd, discussions.find? (fun d => d.id == pid) = some pd →
        ∃ r, (add_reply discussions replies pid content uid name now).1 = .ok r.id ∧
          (add_reply discussions replies pid content uid name now).2.2 = replies ++ [r]) := by
  refine ⟨?_, ?_, ?_, ?_⟩
  · intro h
    have hcond : (check_for_identifiers post.title || check_for_identifiers post.content) = true := by
      rcases h with h | h <;> simp [h]
    constructor <;> simp [create_discussion, hcond]
  · intro h1 h2
    simp [create_discussion, h1, h2]
  · intro h
    refine ⟨?_, ?_, ?_⟩ <;> simp [add_reply, h]
  · intro h pd hpd
    refine ⟨⟨"reply-" ++ toString now, content, uid, name, now, false⟩, ?_, ?_⟩ <;>
      simp [add_reply, h, hpd]

/-- Witness for C9: a prose-only post is stored; an id-phrase post is
rejected and nothing is written. -/
theorem C9_witness :
    (∃ doc,
      (create_discussion [] ⟨"Mild cough", "How to treat a mild cough", "general"⟩ "d1" "Doc" 5).1 =
        .ok doc ∧
      (create_discussion [] ⟨"Mild cough", "How to treat a mild cough", "general"⟩ "d1" "Doc" 5).2 =
        [] ++ [doc]) ∧
    (create_discussion [] ⟨"Note", "saw patient id four", "general"⟩ "d1" "Doc" 5).2 = [] :=
  ⟨(C9_discussion_identifier_gate [] [] ⟨"Mild cough", "How to treat a mild cough", "general"⟩
      "x" "c" "d1" "Doc" 5).2.1 (by decide) (by decide),
   ((C9_discussion_identifier_gate [] [] ⟨"Note", "saw patient id four", "general"⟩
      "x" "c" "d1" "Doc" 5).1 (Or.inr (by decide))).1⟩

/--
C6: a finalized prescription rejects every `update_prescription` attempt
(403 for a non-author, 400 for the author) and the store is unchanged; while
not finalized, a non-author gets 403 from both update and finalize with no
change, and the authoring doctor may update and finalize.
-/
theorem C6_prescription_lock (st : List Prescription) (pid : String)
    (meds : List Medicine) (notes : Option String) (caller : String) (now : Nat)
    (p : Prescription) (hp : findPrescription st pid = some p) :
    (p.finalized = true →
      (∃ e, (update_prescription st pid meds notes caller now).1 = .error e ∧
        (e.status_code = 403 ∨ e.status_code = 400)) ∧
      (update_prescription st pid meds notes caller now).2 = st) ∧
    (p.finalized = false → caller ≠ p.doctor_uid →
      (update_prescription st pid meds notes caller now).1 =
        .error ⟨403, "Only the authoring doctor can edit this prescription"⟩ ∧
      (update_prescription st pid meds notes caller now).2 = st ∧
      (finalize_prescription st pid caller now).1 =
        .error ⟨403, "Only the authoring doctor can finalize this prescription"⟩ ∧
      (finalize_prescription st pid caller now).2 = st) ∧
    (p.finalized = false → caller = p.doctor_uid →
      (update_prescription st pid meds notes caller now).1 = .ok () ∧
      (finalize_prescription st pid caller now).1 = .ok ()) := by
  refine ⟨?_, ?_, ?_⟩
  · intro hf
    by_cases hd : p.doctor_uid = caller
    · refine ⟨⟨⟨400, "Cannot edit a finalized prescription"⟩, ?_, Or.inr rfl⟩, ?_⟩ <;>
        simp [update_prescription, hp, hd, hf]
    · refine ⟨⟨⟨403, "Only the authoring doctor can edit this prescription"⟩, ?_, Or.inl rfl⟩, ?_⟩ <;>
        simp [update_prescription, hp, hd]
  · intro _ hc
    have hd : p.doctor_uid ≠ caller := fun h => hc h.symm
    refine ⟨?_, ?_, ?_, ?_⟩ <;> simp [update_prescription, finalize_prescription, hp, hd]
  · intro hf hc
    constructor <;> simp [update_prescription, finalize_prescription, hp, hc.symm, hf]

/-- Witness for C6: the authoring doctor cannot edit a finalized
prescription, and the store is unchanged. -/
theorem C6_witness :
    (update_prescription
      [{ id := "rx-1", consultation_id := "c1", patient_uid := "p1", doctor_uid := "doc1",
         medicines := [], created_at := 1, updated_at := 1, finalized := true }]
      "rx-1" [] none "doc1" 9).2 =
    [{ id := "rx-1", consultation_id := "c1", patient_uid := "p1", doctor_uid := "doc1",
       medicines := [], created_at := 1, updated_at := 1, finalized := true }] :=
  ((C6_prescription_lock _ "rx-1" [] none "doc1" 9
    { id := "rx-1", consultation_id := "c1", patient_uid := "p1", doctor_uid := "doc1",
      medicines := [], created_at := 1, updated_at := 1, finalized := true }
    (by decide)).1 rfl).2

/-- Looking a document up after an id-preserving `update` is the update of
the lookup. -/
theorem findTriageDoc_updateTriageDoc (st : List TriageDoc) (sid : String)
    (f : TriageDoc → TriageDoc) (hf : ∀ d, (f d).symptom_id = d.symptom_id) :
    findTriageDoc (updateTriageDoc st sid f) sid = (findTriageDoc st sid).map f := by
  induction st with
  | nil => rfl
  | cons a l ih =>
    by_cases h : a.symptom_id = sid
    · simp [findTriageDoc, updateTriageDoc, List.find?_cons, h, hf]
    · simp only [findTriageDoc, updateTriageDoc, List.map_cons] at *
      rw [if_neg (by simpa using h)]
      rw [List.find?_cons_of_neg _ (by simpa using h),
        List.find?_cons_of_neg _ (by simpa using h)]
      exact ih

/-- Documents with a different id are untouched by `updateTriageDoc`. -/
theorem mem_updateTriageDoc_of_ne (st : List TriageDoc) (sid : String)
    (f : TriageDoc → TriageDoc) (e : TriageDoc) (he : e ∈ st)
    (hne : e.symptom_id ≠ sid) : e ∈ updateTriageDoc st sid f := by
  unfold updateTriageDoc
  refine List.mem_map.mpr ⟨e, he, ?_⟩
  simp [hne]

/-- The id of a queue entry is the document id of the summary. -/
theorem buildQueueEntry_id (t : List TriageDoc) (s : SummaryDoc) :
    (buildQueueEntry t s).id = s.docId := by
  unfold buildQueueEntry
  cases findTriageDoc t s.docId <;> rfl

/--
C5: only role `doctor` can write a triage override (any other role gets 403
and the store is unchanged); the override write changes only the
override-related fields of the record (level and reason stay), and the
pending queue then ranks that record by the override level while the stored
`triage_level` stays `routine`.
-/
theorem C5_doctor_override_frame_and_queue
    (st : List TriageDoc) (summaries : List SummaryDoc) (sid : String)
    (newLevel : TriageLevel) (reason role uid : String) (now : Nat) (d : TriageDoc) :
    (role ≠ "doctor" →
      doctor_override_triage st sid newLevel reason role uid now =
        (.error ⟨403, "Only doctors can override triage"⟩, st)) ∧
    (findTriageDoc st sid = some d →
      findTriageDoc (doctor_override_triage st sid newLevel reason "doctor" uid now).2 sid =
        some { d with doctor_override := some newLevel,
                      doctor_override_reason := some reason,
                      overridden_by := some uid,
                      overridden_at := some now } ∧
      (∀ e ∈ st, e.symptom_id ≠ sid →
        e ∈ (doctor_override_triage st sid newLevel reason "doctor" uid now).2) ∧
      (d.triage_level = .routine →
        (∃ d', findTriageDoc
            (doctor_override_triage st sid newLevel reason "doctor" uid now).2 sid =
            some d' ∧ d'.triage_level = .routine ∧
            d'.classification_reason = d.classification_reason) ∧
        ∀ q ∈ get_pending_queue summaries
            (doctor_override_triage st sid newLevel reason "doctor" uid now).2,
          q.id = sid →
            q.priority = TRIAGE_PRIORITY newLevel ∧ q.triage_level = newLevel ∧
            q.doctor_override = some newLevel)) := by
  constructor
  · intro h
    simp [doctor_override_triage, h]
  · intro hd
    have hst2 : (doctor_override_triage st sid newLevel reason "doctor" uid now).2 =
        updateTriageDoc st sid
          (fun d => { d with doctor_override := some newLevel,
                             doctor_override_reason := some reason,
                             overridden_by := some uid,
                             overridden_at := some now }) := by
      simp [doctor_override_triage, hd]
    have hfind : findTriageDoc
        (doctor_override_triage st sid newLevel reason "doctor" uid now).2 sid =
        some { d with doctor_override := some newLevel,
                      doctor_override_reason := some reason,
                      overridden_by := some uid,
                      overridden_at := some now } := by
      rw [hst2, findTriageDoc_updateTriageDoc st sid
        (fun t => { t with doctor_override := some newLevel,
                           doctor_override_reason := some reason,
                           overridden_by := some uid,
                           overridden_at := some now }) (fun t => rfl), hd]
      rfl
    refine ⟨hfind, ?_, ?_⟩
    · intro e he hne
      rw [hst2]
      exact mem_updateTriageDoc_of_ne st sid _ e he hne
    · intro hroutine
      refine ⟨⟨_, hfind, hroutine, rfl⟩, ?_⟩
      intro q hq hid
      unfold get_pending_queue at hq
      rw [List.mem_mergeSort] at hq
      obtain ⟨s, hs, rfl⟩ := List.mem_map.mp hq
      have hsid : s.docId = sid := by
        rw [← buildQueueEntry_id
          (doctor_override_triage st sid newLevel reason "doctor" uid now).2 s]
        exact hid
      rw [buildQueueEntry, hsid, hfind]
      exact ⟨rfl, rfl, rfl⟩

/-- Witness for C5: a non-doctor override attempt is rejected and the store
is unchanged. -/
theorem C5_witness :
    doctor_override_triage
      [{ symptom_id := "sym1", patient_uid := "p1", triage_level := .routine,
         classification_reason := "stable", computed_at := 3 }]
      "sym1" .urgent_attention_suggested "deteriorating" "health_worker" "u1" 7 =
    (.error ⟨403, "Only doctors can override triage"⟩,
     [{ symptom_id := "sym1", patient_uid := "p1", triage_level := .routine,
        classification_reason := "stable", computed_at := 3 }]) :=
  (C5_doctor_override_frame_and_queue _ [] "sym1" .urgent_attention_suggested
    "deteriorating" "health_worker" "u1" 7
    { symptom_id := "sym1", patient_uid := "p1", triage_level := .routine,
      classification_reason := "stable", computed_at := 3 }).1 (by decide)

/-- Session lookup after an id-preserving `update` is the update of the
lookup. -/
theorem find?_updateSessionDoc (st : List Session) (sid : String)
    (f : Session → Session) (hf : ∀ s, (f s).id = s.id) :
    (updateSessionDoc st sid f).find? (fun t => t.id == sid) =
      (st.find? (fun t => t.id == sid)).map f := by
  induction st with
  | nil => rfl
  | cons a l ih =>
    by_cases h : a.id = sid
    · simp [updateSessionDoc, List.find?_cons, h, hf]
    · simp only [updateSessionDoc, List.map_cons] at *
      rw [if_neg (by simpa using h)]
      rw [List.find?_cons_of_neg _ (by simpa using h),
        List.find?_cons_of_neg _ (by simpa using h)]
      exact ih

/--
C8 counterexample: heartbeat on a session owned by another worker fails with
403 Forbidden, not 404 NotFound; and heartbeat on a status-`active` session
whose `expires_at` lies in the past does not transition it to `expired` — it
succeeds and slides the expiry forward, leaving the status `active`.
-/
theorem C8_counterexample :
    (session_heartbeat
      [{ id := "s1", health_worker_uid := "hwA", patient_uid := "p1", status := .active,
         is_assisted := true, patient_presence_confirmed := true, preferred_language := "en",
         created_at := 0, last_activity := 0, expires_at := 100,
         permissions := startPermissions }] "s1" "hwB" 50).1 =
      .error ⟨403, "Not your session"⟩ ∧
    (Except.error ⟨403, "Not your session"⟩ : Except HTTPException Nat) ≠
      .error ⟨404, "Session not found"⟩ ∧
    (session_heartbeat
      [{ id := "s1", health_worker_uid := "hwA", patient_uid := "p1", status := .active,
         is_assisted := true, patient_presence_confirmed := true, preferred_language := "en",
         created_at := 0, last_activity := 0, expires_at := 10,
         permissions := startPermissions }] "s1" "hwA" 100).1 = .ok 130 ∧
    (session_heartbeat
      [{ id := "s1", health_worker_uid := "hwA", patient_uid := "p1", status := .active,
         is_assisted := true, patient_presence_confirmed := true, preferred_language := "en",
         created_at := 0, last_activity := 0, expires_at := 10,
         permissions := startPermissions }] "s1" "hwA" 100).2 =
      [{ id := "s1", health_worker_uid := "hwA", patient_uid := "p1", status := .active,
         is_assisted := true, patient_presence_confirmed := true, preferred_language := "en",
         created_at := 0, last_activity := 100, expires_at := 130,
         permissions := startPermissions }] :=
  ⟨by rfl, by simp, by rfl, by rfl⟩

/--
C8 (amended): heartbeat fails with 404 NotFound when no session has the id,
403 Forbidden when the session exists but is owned by another worker, 410
Gone when its stored status is not `active`, and otherwise succeeds and
slides `expires_at` to `now + 30` minutes; it performs no time-based expiry
transition of its own.
-/
theorem C8_heartbeat_behavior (st : List Session) (sid hw : String) (now : Nat) :
    (st.find? (fun t => t.id == sid) = none →
      session_heartbeat st sid hw now = (.error ⟨404, "Session not found"⟩, st)) ∧
    (∀ s, st.find? (fun t => t.id == sid) = some s →
      (s.health_worker_uid ≠ hw →
        session_heartbeat st sid hw now = (.error ⟨403, "Not your session"⟩, st)) ∧
      (s.health_worker_uid = hw → s.status ≠ .active →
        session_heartbeat st sid hw now =
          (.error ⟨410, "Session has expired. Start a new session with patient consent."⟩,
           st)) ∧
      (s.health_worker_uid = hw → s.status = .active →
        (session_heartbeat st sid hw now).1 = .ok (now + SESSION_TIMEOUT_MINUTES) ∧
        (session_heartbeat st sid hw now).2.find? (fun t => t.id == sid) =
          some { s with last_activity := now,
                        expires_at := now + SESSION_TIMEOUT_MINUTES })) := by
  constructor
  · intro h
    simp [session_heartbeat, h]
  · intro s hs
    refine ⟨?_, ?_, ?_⟩
    · intro hown
      simp [session_heartbeat, hs, hown]
    · intro hown hstat
      simp [session_heartbeat, hs, hown, hstat]
    · intro hown hstat
      constructor
      · simp [session_heartbeat, hs, hown, hstat]
      · have h2 : (session_heartbeat st sid hw now).2 =
            updateSessionDoc st sid
              (fun t => { t with last_activity := now,
                                 expires_at := now + SESSION_TIMEOUT_MINUTES }) := by
          simp [session_heartbeat, hs, hown, hstat]
        rw [h2, find?_updateSessionDoc st sid
          (fun t => { t with last_activity := now,
                             expires_at := now + SESSION_TIMEOUT_MINUTES })
          (fun t => rfl), hs]
        rfl

/-- Witness for C8 (amended) at a session owned by another worker. -/
theorem C8_witness :
    session_heartbeat
      [{ id := "s1", health_worker_uid := "hwA", patient_uid := "p1", status := .active,
         is_assisted := true, patient_presence_confirmed := true, preferred_language := "en",
         created_at := 0, last_activity := 0, expires_at := 100,
         permissions := startPermissions }] "s1" "hwB" 50 =
    (.error ⟨403, "Not your session"⟩,
     [{ id := "s1", health_worker_uid := "hwA", patient_uid := "p1", status := .active,
        is_assisted := true, patient_presence_confirmed := true, preferred_language := "en",
        created_at := 0, last_activity := 0, expires_at := 100,
        permissions := startPermissions }]) :=
  ((C8_heartbeat_behavior
    [{ id := "s1", health_worker_uid := "hwA", patient_uid := "p1", status := .active,
       is_assisted := true, patient_presence_confirmed := true, preferred_language := "en",
       created_at := 0, last_activity := 0, expires_at := 100,
       permissions := startPermissions }] "s1" "hwB" 50).2
    { id := "s1", health_worker_uid := "hwA", patient_uid := "p1", status := .active,
      is_assisted := true, patient_presence_confirmed := true, preferred_language := "en",
      created_at := 0, last_activity := 0, expires_at := 100,
      permissions := startPermissions } (by decide)).1 (by decide)

/-- Every session left in the store by the `get_active_session` sweep has the
permissions of a session already in the store (the sweep touches only
status and end time). -/
theorem get_active_session_perms (uid : String) (now : Nat) (st : List Session) :
    ∀ s' ∈ (get_active_session uid now st).2, ∃ s ∈ st, s'.permissions = s.permissions := by
  induction st with
  | nil =>
    intro s' hs'
    simp [get_active_session] at hs'
  | cons a l ih =>
    intro s' hs'
    by_cases h : (a.health_worker_uid == uid && a.status == SessionStatus.active) = true
    · by_cases h2 : now < a.expires_at
      · simp only [get_active_session, if_pos h, if_pos h2] at hs'
        exact ⟨s', hs', rfl⟩
      · simp only [get_active_session, if_pos h, if_neg h2] at hs'
        rcases List.mem_cons.mp hs' with hEq | hmem
        · exact ⟨a, List.mem_cons_self a l, by rw [hEq]⟩
        · obtain ⟨s, hsmem, hperm⟩ := ih s' hmem
          exact ⟨s, List.mem_cons_of_mem a hsmem, hperm⟩
    · simp only [get_active_session, if_neg h] at hs'
      rcases List.mem_cons.mp hs' with hEq | hmem
      · exact ⟨a, List.mem_cons_self a l, by rw [hEq]⟩
      · obtain ⟨s, hsmem, hperm⟩ := ih s' hmem
        exact ⟨s, List.mem_cons_of_mem a hsmem, hperm⟩

/-- A member of `setSessionDoc st s0` is a member of `st` or is `s0`. -/
theorem mem_setSessionDoc (st : List Session) (s0 s : Session)
    (hs : s ∈ setSessionDoc st s0) : s ∈ st ∨ s = s0 := by
  unfold setSessionDoc at hs
  by_cases h : st.any (fun t => t.id == s0.id)
  · rw [if_pos h] at hs
    obtain ⟨t, ht, hts⟩ := List.mem_map.mp hs
    by_cases h2 : (t.id == s0.id) = true
    · right; rw [← hts, if_pos h2]
    · left; rw [← hts, if_neg h2]; exact ht
  · rw [if_neg h] at hs
    rcases List.mem_append.mp hs with hmem | hmem
    · exact Or.inl hmem
    · exact Or.inr (List.mem_singleton.mp hmem)

/-- A member of `updateSessionDoc st sid f` is an untouched member of `st`
or the image under `f` of a member. -/
theorem mem_updateSessionDoc (st : List Session) (sid : String)
    (f : Session → Session) (s : Session) (hs : s ∈ updateSessionDoc st sid f) :
    s ∈ st ∨ ∃ t, t ∈ st ∧ s = f t := by
  unfold updateSessionDoc at hs
  obtain ⟨t, ht, hts⟩ := List.mem_map.mp hs
  by_cases hid : (t.id == sid) = true
  · right; exact ⟨t, ht, by rw [← hts, if_pos hid]⟩
  · left; rw [← hts, if_neg hid]; exact ht

/-- The sessions collection after `start_assisted_session` is the input, the
swept input, or the swept input plus the fixed new session document. -/
theorem start_store_cases (st : List Session) (req : SessionStartRequest)
    (hw f : String) (now : Nat) :
    (start_assisted_session st req hw f now).2 = st ∨
    (start_assisted_session st req hw f now).2 = (get_active_session hw now st).2 ∨
    ∃ p, (start_assisted_session st req hw f now).2 =
      setSessionDoc (get_active_session hw now st).2
        (startSessionDoc hw f p req.preferred_language now) := by
  unfold start_assisted_session
  by_cases hp : req.patient_presence_confirmed = false
  · rw [if_pos hp]
    exact Or.inl rfl
  · rw [if_neg hp]
    cases hga : get_active_session hw now st with
    | mk o st' =>
      cases o with
      | some s => exact Or.inr (Or.inl rfl)
      | none =>
        by_cases ht : req.is_temporary = true
        · exact Or.inr (Or.inr ⟨"temp-" ++ f, by simp [ht]⟩)
        · cases hpu : req.patient_uid with
          | none => exact Or.inr (Or.inl (by simp [ht, hpu]))
          | some p => exact Or.inr (Or.inr ⟨p, by simp [ht, hpu]⟩)

/-- The sessions collection after `session_heartbeat` is the input or the
input with the activity fields of the addressed document refreshed. -/
theorem heartbeat_store_cases (st : List Session) (sid hw : String) (now : Nat) :
    (session_heartbeat st sid hw now).2 = st ∨
    (session_heartbeat st sid hw now).2 =
      updateSessionDoc st sid
        (fun t => { t with last_activity := now,
                           expires_at := now + SESSION_TIMEOUT_MINUTES }) := by
  unfold session_heartbeat
  split
  · exact Or.inl rfl
  · split
    · exact Or.inl rfl
    · split
      · exact Or.inl rfl
      · exact Or.inr rfl

/-- The sessions collection after `end_assisted_session` is the input or the
input with the addressed document ended and its permissions zeroed. -/
theorem end_store_cases (st : List Session) (sid hw : String) (now : Nat) :
    (end_assisted_session st sid hw now).2 = st ∨
    (end_assisted_session st sid hw now).2 =
      updateSessionDoc st sid
        (fun t => { t with status := .ended, ended_at := some now,
                           permissions := endedPermissions }) := by
  unfold end_assisted_session
  split
  · exact Or.inl rfl
  · split
    · exact Or.inl rfl
    · exact Or.inr rfl

/-- The sessions collection after `require_active_assisted_session` is the
input or the input with the addressed expired document marked `expired`. -/
theorem require_active_store_cases (st : List Session) (sid hw : String) (now : Nat) :
    (require_active_assisted_session st sid hw now).2 = st ∨
    (require_active_assisted_session st sid hw now).2 =
      updateSessionDoc st sid
        (fun t => { t with status := .expired, ended_at := some now }) := by
  unfold require_active_assisted_session
  split
  · exact Or.inl rfl
  · split
    · exact Or.inl rfl
    · split
      · exact Or.inl rfl
      · split
        · exact Or.inr rfl
        · exact Or.inl rfl

/-- `capture_assisted_consent` changes the sessions collection exactly as the
active-session gate does. -/
theorem capture_store_eq (st : List Session) (cs : List ConsentDoc)
    (sid ct : String) (g : Bool) (hw : String) (now : Nat) :
    (capture_assisted_consent st cs sid ct g hw now).2.1 =
      (require_active_assisted_session st sid hw now).2 := by
  unfold capture_assisted_consent
  split
  · rename_i e st' heq
    rw [heq]
  · rename_i s st' heq
    rw [heq]

/-- `viewPermsOff` depends only on the permissions map. -/
theorem viewPermsOff_of_perm_eq {s t : Session} (h : s.permissions = t.permissions) :
    viewPermsOff s = viewPermsOff t := by
  simp [viewPermsOff, h]

/--
C3: for every state of the sessions collection in which all four view flags
of every session are false, every operation of the repository preserves that
— including a start request that supplies its own permission fields, which
are ignored; so no operation can set `can_view_history`,
`can_view_ai_summary`, `can_view_triage` or `can_view_prescriptions` true.
-/
theorem C3_view_permissions_never_true (st : List Session) (op : SessionOp)
    (h : ∀ s ∈ st, viewPermsOff s = true) :
    ∀ s ∈ applySessionOp st op, viewPermsOff s = true := by
  have hsweep : ∀ (uid : String) (now : Nat) (s : Session),
      s ∈ (get_active_session uid now st).2 → viewPermsOff s = true := by
    intro uid now s hs
    obtain ⟨t, ht, hperm⟩ := get_active_session_perms uid now st s hs
    rw [viewPermsOff_of_perm_eq hperm]
    exact h t ht
  cases op with
  | start req hw f now =>
    intro s hs
    simp only [applySessionOp] at hs
    rcases start_store_cases st req hw f now with hc | hc | ⟨p, hc⟩
    · rw [hc] at hs; exact h s hs
    · rw [hc] at hs; exact hsweep hw now s hs
    · rw [hc] at hs
      rcases mem_setSessionDoc _ _ _ hs with hmem | rfl
      · exact hsweep hw now s hmem
      · rfl
  | heartbeat sid hw now =>
    intro s hs
    simp only [applySessionOp] at hs
    rcases heartbeat_store_cases st sid hw now with hc | hc
    · rw [hc] at hs; exact h s hs
    · rw [hc] at hs
      rcases mem_updateSessionDoc _ _ _ _ hs with hmem | ⟨t, ht, rfl⟩
      · exact h s hmem
      · rw [viewPermsOff_of_perm_eq (rfl)]
        exact h t ht
  | endSession sid hw now =>
    intro s hs
    simp only [applySessionOp] at hs
    rcases end_store_cases st sid hw now with hc | hc
    · rw [hc] at hs; exact h s hs
    · rw [hc] at hs
      rcases mem_updateSessionDoc _ _ _ _ hs with hmem | ⟨t, ht, rfl⟩
      · exact h s hmem
      · rfl
  | currentSession uid now =>
    intro s hs
    simp only [applySessionOp] at hs
    exact hsweep uid now s hs
  | captureConsent sid ct g hw now =>
    intro s hs
    simp only [applySessionOp] at hs
    rw [capture_store_eq] at hs
    rcases require_active_store_cases st sid hw now with hc | hc
    · rw [hc] at hs; exact h s hs
    · rw [hc] at hs
      rcases mem_updateSessionDoc _ _ _ _ hs with hmem | ⟨t, ht, rfl⟩
      · exact h s hmem
      · rw [viewPermsOff_of_perm_eq (rfl)]
        exact h t ht

/-- Witness for C3: the session created from an empty store has all view
flags off, even though the request carries permission fields. -/
theorem C3_witness :
    viewPermsOff (startSessionDoc "hw1" "tok" "p1" "en" 0) = true :=
  C3_view_permissions_never_true []
    (.start
      { patient_uid := some "p1",
        extra_permissions := some
          { can_upload := true, can_log_symptoms := true, can_capture_consent := true,
            can_view_history := true, can_view_ai_summary := true,
            can_view_triage := true, can_view_prescriptions := true } }
      "hw1" "tok" 0)
    (by simp)
    (startSessionDoc "hw1" "tok" "p1" "en" 0)
    (by decide)

/-- When the sweep finds nothing, no session of the worker is left `active`
in the store. -/
theorem get_active_session_none_no_active (uid : String) (now : Nat) (st : List Session)
    (h : (get_active_session uid now st).1 = none) :
    ∀ s ∈ (get_active_session uid now st).2,
      ¬(s.health_worker_uid = uid ∧ s.status = .active) := by
  induction st with
  | nil =>
    intro s hs
    simp [get_active_session] at hs
  | cons a l ih =>
    by_cases hcond : (a.health_worker_uid == uid && a.status == SessionStatus.active) = true
    · by_cases h2 : now < a.expires_at
      · exfalso
        simp only [get_active_session, if_pos hcond, if_pos h2] at h
        exact Option.noConfusion h
      · simp only [get_active_session, if_pos hcond, if_neg h2] at h ⊢
        intro s hs
        rcases List.mem_cons.mp hs with hEq | hmem
        · rw [hEq]
          rintro ⟨-, hstat⟩
          exact SessionStatus.noConfusion hstat
        · exact ih h s hmem
    · simp only [get_active_session, if_neg hcond] at h ⊢
      intro s hs
      rcases List.mem_cons.mp hs with hEq | hmem
      · rw [hEq]
        intro hc
        exact hcond (by simp [hc.1, hc.2])
      · exact ih h s hmem

/-- If the worker has an `active`, non-expired session in the store, the
sweep finds one. -/
theorem get_active_session_finds (uid : String) (now : Nat) (st : List Session)
    (h : ∃ s ∈ st, s.health_worker_uid = uid ∧ s.status = .active ∧ now < s.expires_at) :
    (get_active_session uid now st).1.isSome = true := by
  induction st with
  | nil => simp at h
  | cons a l ih =>
    obtain ⟨s, hs, h1, h2, h3⟩ := h
    rcases List.mem_cons.mp hs with hEq | hmem
    · subst hEq
      simp [get_active_session, h1, h2, h3]
    · by_cases hcond : (a.health_worker_uid == uid && a.status == SessionStatus.active) = true
      · by_cases hexp : now < a.expires_at
        · have hcondP : a.health_worker_uid = uid ∧ a.status = SessionStatus.active := by
            simpa using hcond
          simp [get_active_session, hcondP.1, hcondP.2, hexp]
        · have hrec := ih ⟨s, hmem, h1, h2, h3⟩
          simp only [get_active_session, if_pos hcond, if_neg hexp]
          exact hrec
      · have hrec := ih ⟨s, hmem, h1, h2, h3⟩
        simp only [get_active_session, if_neg hcond]
        exact hrec

/-- A store with no `active` session of the worker is a fixed point of the
sweep. -/
theorem get_active_session_of_no_active (uid : String) (now : Nat) (st : List Session)
    (h : ∀ s ∈ st, ¬(s.health_worker_uid = uid ∧ s.status = .active)) :
    get_active_session uid now st = (none, st) := by
  induction st with
  | nil => rfl
  | cons a l ih =>
    have hcond : ¬((a.health_worker_uid == uid && a.status == SessionStatus.active) = true) := by
      intro hc
      simp only [Bool.and_eq_true, beq_iff_eq] at hc
      exact h a (List.mem_cons_self a l) hc
    simp only [get_active_session, if_neg hcond]
    rw [ih (fun s hs => h s (List.mem_cons_of_mem a hs))]

/-- The sweep preserves ids and owners of the stored sessions. -/
theorem get_active_session_ids (uid : String) (now : Nat) (st : List Session) :
    ∀ s' ∈ (get_active_session uid now st).2, ∃ s ∈ st, s'.id = s.id := by
  induction st with
  | nil =>
    intro s' hs'
    simp [get_active_session] at hs'
  | cons a l ih =>
    intro s' hs'
    by_cases h : (a.health_worker_uid == uid && a.status == SessionStatus.active) = true
    · by_cases h2 : now < a.expires_at
      · simp only [get_active_session, if_pos h, if_pos h2] at hs'
        exact ⟨s', hs', rfl⟩
      · simp only [get_active_session, if_pos h, if_neg h2] at hs'
        rcases List.mem_cons.mp hs' with hEq | hmem
        · exact ⟨a, List.mem_cons_self a l, by rw [hEq]⟩
        · obtain ⟨s, hsmem, hid⟩ := ih s' hmem
          exact ⟨s, List.mem_cons_of_mem a hsmem, hid⟩
    · simp only [get_active_session, if_neg h] at hs'
      rcases List.mem_cons.mp hs' with hEq | hmem
      · exact ⟨a, List.mem_cons_self a l, by rw [hEq]⟩
      · obtain ⟨s, hsmem, hid⟩ := ih s' hmem
        exact ⟨s, List.mem_cons_of_mem a hsmem, hid⟩

/-- `set` of a document whose id is fresh appends it. -/
theorem setSessionDoc_fresh (st : List Session) (s0 : Session)
    (h : ∀ s ∈ st, s.id ≠ s0.id) : setSessionDoc st s0 = st ++ [s0] := by
  unfold setSessionDoc
  rw [if_neg ?_]
  intro hc
  rw [List.any_eq_true] at hc
  obtain ⟨t, ht, htid⟩ := hc
  exact h t ht (by simpa using htid)

/-- `update` of an id that no stored document carries is the identity. -/
theorem updateSessionDoc_of_no_id (st : List Session) (sid : String)
    (f : Session → Session) (h : ∀ s ∈ st, s.id ≠ sid) :
    updateSessionDoc st sid f = st := by
  induction st with
  | nil => rfl
  | cons a l ih =>
    have ha : ¬((a.id == sid) = true) := by
      simpa using h a (List.mem_cons_self a l)
    simp only [updateSessionDoc, List.map_cons, if_neg ha]
    rw [show List.map (fun t => if t.id == sid then f t else t) l =
      updateSessionDoc l sid f from rfl]
    rw [ih (fun s hs => h s (List.mem_cons_of_mem a hs))]

/-- What a successful `start_assisted_session` implies: the sweep found
nothing and the new fixed session document was appended over the swept
store. -/
theorem start_ok_spec (st : List Session) (req : SessionStartRequest) (hw f : String)
    (now : Nat) (resp : SessionResponse)
    (hok : (start_assisted_session st req hw f now).1 = .ok resp) :
    (get_active_session hw now st).1 = none ∧
    ∃ p, (start_assisted_session st req hw f now).2 =
      setSessionDoc (get_active_session hw now st).2
        (startSessionDoc hw f p req.preferred_language now) := by
  unfold start_assisted_session at hok ⊢
  by_cases hp : req.patient_presence_confirmed = false
  · rw [if_pos hp] at hok
    simp at hok
  · rw [if_neg hp] at hok ⊢
    cases hga : get_active_session hw now st with
    | mk o st' =>
      rw [hga] at hok
      cases o with
      | some s => simp at hok
      | none =>
        refine ⟨rfl, ?_⟩
        by_cases ht : req.is_temporary = true
        · exact ⟨"temp-" ++ f, by simp [ht]⟩
        · cases hpu : req.patient_uid with
          | none => simp [ht, hpu] at hok
          | some p => exact ⟨p, by simp [ht, hpu]⟩

/-- A presence-confirmed start while an `active`, non-expired session exists
fails with 409. -/
theorem start_conflict_of_active (st : List Session) (req : SessionStartRequest)
    (hw f : String) (now : Nat)
    (hp : req.patient_presence_confirmed = true)
    (hact : ∃ s ∈ st, s.health_worker_uid = hw ∧ s.status = .active ∧ now < s.expires_at) :
    (start_assisted_session st req hw f now).1 =
      .error ⟨409, "You already have an active assisted session. Please end it before starting a new one."⟩ := by
  have hsome := get_active_session_finds hw now st hact
  unfold start_assisted_session
  rw [if_neg (by simp [hp])]
  cases hga : get_active_session hw now st with
  | mk o st' =>
    cases o with
    | some s => rfl
    | none =>
      rw [hga] at hsome
      simp at hsome

/-- After a successful start followed by ending the minted session, the
worker has no `active` session left in the store. -/
theorem no_active_after_end (st : List Session) (req : SessionStartRequest)
    (hw f1 : String) (now1 now3 : Nat) (resp : SessionResponse)
    (hok : (start_assisted_session st req hw f1 now1).1 = .ok resp)
    (hfresh : ∀ s ∈ st, s.id ≠ "session-" ++ f1) :
    ∀ s ∈ (end_assisted_session (start_assisted_session st req hw f1 now1).2
        ("session-" ++ f1) hw now3).2,
      ¬(s.health_worker_uid = hw ∧ s.status = .active) := by
  obtain ⟨hnone, p, hst1⟩ := start_ok_spec st req hw f1 now1 resp hok
  have hfresh' : ∀ s ∈ (get_active_session hw now1 st).2, s.id ≠ "session-" ++ f1 := by
    intro s hs
    obtain ⟨t, ht, hid⟩ := get_active_session_ids hw now1 st s hs
    rw [hid]
    exact hfresh t ht
  have happend : (start_assisted_session st req hw f1 now1).2 =
      (get_active_session hw now1 st).2 ++
        [startSessionDoc hw f1 p req.preferred_language now1] := by
    rw [hst1]
    exact setSessionDoc_fresh _ _ (fun s hs => hfresh' s hs)
  have hfindl : ((get_active_session hw now1 st).2).find?
      (fun t => t.id == ("session-" ++ f1)) = none := by
    rw [List.find?_eq_none]
    intro x hx
    simpa using hfresh' x hx
  have hfind : ((start_assisted_session st req hw f1 now1).2).find?
      (fun t => t.id == ("session-" ++ f1)) =
      some (startSessionDoc hw f1 p req.preferred_language now1) := by
    rw [happend, List.find?_append, hfindl]
    simp [startSessionDoc]
  have hend : (end_assisted_session (start_assisted_session st req hw f1 now1).2
      ("session-" ++ f1) hw now3).2 =
      updateSessionDoc (start_assisted_session st req hw f1 now1).2 ("session-" ++ f1)
        (fun t => { t with status := .ended, ended_at := some now3,
                           permissions := endedPermissions }) := by
    unfold end_assisted_session
    simp only [hfind]
    rw [if_neg (by simp [startSessionDoc])]
  rw [hend, happend]
  have hupd : updateSessionDoc
      ((get_active_session hw now1 st).2 ++
        [startSessionDoc hw f1 p req.preferred_language now1])
      ("session-" ++ f1)
      (fun t => { t with status := .ended, ended_at := some now3,
                         permissions := endedPermissions }) =
      (get_active_session hw now1 st).2 ++
        [{ startSessionDoc hw f1 p req.preferred_language now1 with
           status := .ended, ended_at := some now3,
           permissions := endedPermissions }] := by
    unfold updateSessionDoc
    rw [List.map_append]
    congr 1
    · exact updateSessionDoc_of_no_id _ _ _ hfresh'
    · simp [startSessionDoc]
  rw [hupd]
  intro s hs
  rcases List.mem_append.mp hs with hmem | hmem
  · exact get_active_session_none_no_active hw now1 st hnone s hmem
  · rw [List.mem_singleton.mp hmem]
    rintro ⟨-, hstat⟩
    exact SessionStatus.noConfusion hstat

/-- A presence-confirmed start succeeds when the worker has no `active`
session and the request carries a patient (temporary or explicit). -/
theorem start_ok_of_fresh (st : List Session) (req : SessionStartRequest) (hw f : String)
    (now : Nat)
    (hp : req.patient_presence_confirmed = true)
    (hnoact : ∀ s ∈ st, ¬(s.health_worker_uid = hw ∧ s.status = .active))
    (hreq : req.is_temporary = true ∨ req.patient_uid.isSome = true) :
    ∃ resp, (start_assisted_session st req hw f now).1 = .ok resp := by
  have hga := get_active_session_of_no_active hw now st hnoact
  unfold start_assisted_session
  rw [if_neg (by simp [hp]), hga]
  by_cases ht : req.is_temporary = true
  · refine ⟨⟨"session-" ++ f, "temp-" ++ f, true, now + SESSION_TIMEOUT_MINUTES⟩, ?_⟩
    simp [ht, startSessionDoc]
  · obtain ⟨p, hpu⟩ : ∃ p, req.patient_uid = some p := by
      rcases hreq with h | h
      · exact absurd h ht
      · exact Option.isSome_iff_exists.mp h
    refine ⟨⟨"session-" ++ f, p, true, now + SESSION_TIMEOUT_MINUTES⟩, ?_⟩
    simp [ht, hpu, startSessionDoc]

/--
C4: `start_assisted_session` fails with 400 when presence is not confirmed
and with 409 when the worker holds an `active`, non-expired session; starting
twice (within the timeout window, with fresh ids) makes the second call fail
with 409, and after `end_session` of the minted session a new presence-
confirmed start succeeds.
-/
theorem C4_session_start_guards
    (st : List Session) (req req2 req3 : SessionStartRequest)
    (hw f1 f2 f3 : String) (now1 now2 now3 now4 : Nat) (resp : SessionResponse) :
    (req.patient_presence_confirmed = false →
      (start_assisted_session st req hw f1 now1).1 =
        .error ⟨400, "Patient presence confirmation is mandatory for assisted sessions"⟩) ∧
    (req.patient_presence_confirmed = true →
      (∃ s ∈ st, s.health_worker_uid = hw ∧ s.status = .active ∧ now1 < s.expires_at) →
      (start_assisted_session st req hw f1 now1).1 =
        .error ⟨409, "You already have an active assisted session. Please end it before starting a new one."⟩) ∧
    ((start_assisted_session st req hw f1 now1).1 = .ok resp →
      (∀ s ∈ st, s.id ≠ "session-" ++ f1) →
      req2.patient_presence_confirmed = true →
      now2 < now1 + SESSION_TIMEOUT_MINUTES →
      (start_assisted_session (start_assisted_session st req hw f1 now1).2
          req2 hw f2 now2).1 =
        .error ⟨409, "You already have an active assisted session. Please end it before starting a new one."⟩) ∧
    ((start_assisted_session st req hw f1 now1).1 = .ok resp →
      (∀ s ∈ st, s.id ≠ "session-" ++ f1) →
      req3.patient_presence_confirmed = true →
      (req3.is_temporary = true ∨ req3.patient_uid.isSome = true) →
      ∃ resp3,
        (start_assisted_session
          (end_assisted_session (start_assisted_session st req hw f1 now1).2
            ("session-" ++ f1) hw now3).2
          req3 hw f3 now4).1 = .ok resp3) := by
  refine ⟨?_, ?_, ?_, ?_⟩
  · intro hp
    simp [start_assisted_session, hp]
  · intro hp hact
    exact start_conflict_of_active st req hw f1 now1 hp hact
  · intro hok hfresh hp2 htime
    obtain ⟨hnone, p, hst1⟩ := start_ok_spec st req hw f1 now1 resp hok
    apply start_conflict_of_active _ req2 hw f2 now2 hp2
    refine ⟨startSessionDoc hw f1 p req.preferred_language now1, ?_, rfl, rfl, ?_⟩
    · rw [hst1]
      have hfresh' : ∀ s ∈ (get_active_session hw now1 st).2, s.id ≠ "session-" ++ f1 := by
        intro s hs
        obtain ⟨t, ht, hid⟩ := get_active_session_ids hw now1 st s hs
        rw [hid]
        exact hfresh t ht
      rw [setSessionDoc_fresh _ _ (fun s hs => hfresh' s hs)]
      exact List.mem_append_right _ (List.mem_singleton.mpr rfl)
    · simpa [startSessionDoc] using htime
  · intro hok hfresh hp3 hreq3
    exact start_ok_of_fresh _ req3 hw f3 now4 hp3
      (no_active_after_end st req hw f1 now1 now3 resp hok hfresh) hreq3

/-- Witness for C4: a start without presence confirmation fails with 400. -/
theorem C4_witness :
    (start_assisted_session []
      { patient_uid := some "p1", patient_presence_confirmed := false }
      "hw1" "t1" 0).1 =
      .error ⟨400, "Patient presence confirmation is mandatory for assisted sessions"⟩ :=
  (C4_session_start_guards []
    { patient_uid := some "p1", patient_presence_confirmed := false } {} {}
    "hw1" "t1" "t2" "t3" 0 1 2 3 ⟨"", "", true, 0⟩).1 rfl

/--
C7: divergence witness.  A symptom record written by the repository function
`store_symptom_record` carries the patient reference in the camelCase
`patientUid` field, but `link_temporary_patient` migrates the `symptoms`
collection by filtering on the snake_case `patient_uid` field.  Hence after a
successful link the symptom record still references the temporary id and no
symptom record references the permanent id — the migration misses the
collection, contradicting the claim (and the "no data loss
during linking" documentation).
-/
theorem C7_symptom_migration_divergence :
    (link_temporary_patient
      { temporary_patients := [{ id := "temp-1", name := "Asha", created_at := 1 }],
        vitals := [],
        symptoms := store_symptom_record [] "temp-1" "rec-1" "dry cough two weeks" 10,
        reports := [], summaries := [], consents := [] }
      "temp-1" "perm-9" "health_worker" 50).1 = .ok () ∧
    (link_temporary_patient
      { temporary_patients := [{ id := "temp-1", name := "Asha", created_at := 1 }],
        vitals := [],
        symptoms := store_symptom_record [] "temp-1" "rec-1" "dry cough two weeks" 10,
        reports := [], summaries := [], consents := [] }
      "temp-1" "perm-9" "health_worker" 50).2.symptoms =
      [{ docId := "rec-1", patientUid := some "temp-1", recordingId := some "rec-1",
         payload := "dry cough two weeks", createdAt := some 10 }] ∧
    ((link_temporary_patient
      { temporary_patients := [{ id := "temp-1", name := "Asha", created_at := 1 }],
        vitals := [],
        symptoms := store_symptom_record [] "temp-1" "rec-1" "dry cough two weeks" 10,
        reports := [], summaries := [], consents := [] }
      "temp-1" "perm-9" "health_worker" 50).2.symptoms.filter
        (fun s => s.patientUid == some "perm-9" || s.patient_uid == some "perm-9")).length
      = 0 :=
  ⟨rfl, rfl, rfl⟩
